import Mathlib

/-!
Verification development for the FIX-message formatter in
src/parse-fix-msg.py.  The Python source is shallowly embedded below:

* the data-dictionary XML (a fields section whose field elements carry a
  number, a name and zero or more value children with enum code and
  description attributes) becomes the structures EnumEntry and FieldDef;
* the parsed command-line flags become RenderConfig;
* each method of class FIXParser becomes a Lean definition of the same
  name (build_row_separator and build_msg_separator become the constants
  row_separator and msg_separator they compute);
* the output file is modelled as the string of everything written to it,
  and the one reachable exception print of make_readable (line 145, which
  identifies the offending tag number) is modelled as the Option String
  component of make_readable's result;
* init_fields (lines 76-85) swallows every exception, leaving self.fields
  as None; its result is therefore modelled as an Option (List FieldDef)
  argument threaded through the rest of the pipeline: some fs when the
  dictionary was parsed and a fields section was found, none otherwise.

Python's str.split with a one-character separator is embedded as pySplit
(via splitChar on the character list), and str.strip as pyStrip
(Char.isWhitespace covers the ASCII whitespace Python strips; the exotic
additions of str.strip such as form feed do not matter for any claim).
-/

/-- One value child of a field element of the data dictionary: attributes
enum (the code) and description. -/
structure EnumEntry where
  code : String
  description : String
  deriving DecidableEq, Repr

/-- One field element of the dictionary's fields section: attributes
number and name, plus its value children in declaration order. -/
structure FieldDef where
  number : String
  name : String
  values : List EnumEntry
  deriving DecidableEq, Repr

/-- The two user flags of the parsed command line (lines 32-35). -/
structure RenderConfig where
  hide_enums : Bool
  row_lines : Bool
  deriving DecidableEq, Repr

/-- FIXParser.tag_column_length (line 15). -/
def tag_column_length : Nat := 5

/-- FIXParser.field_name_column_length (line 16). -/
def field_name_column_length : Nat := 23

/-- FIXParser.trailing_column_length (line 17). -/
def trailing_column_length : Nat := 65

/-- FIXParser.msg_separator_length (line 18). -/
def msg_separator_length : Nat := 100

/-- The delimiter character of line 158: the literal passed to
line.split is the single control character U+0001 (SOH). -/
def sohChar : Char := Char.ofNat 1

/-- The separator built by FIXParser.build_row_separator (lines 52-65):
a loop of tag_column_length dashes, then "-+-", then
field_name_column_length dashes, then "-+-", then
trailing_column_length dashes, then a newline. -/
def row_separator : String :=
  String.mk (List.replicate tag_column_length '-') ++ "-+-"
    ++ String.mk (List.replicate field_name_column_length '-') ++ "-+-"
    ++ String.mk (List.replicate trailing_column_length '-') ++ "\n"

/-- The separator built by FIXParser.build_msg_separator (lines 67-74):
a loop of msg_separator_length periods, then a newline. -/
def msg_separator : String :=
  String.mk (List.replicate msg_separator_length '.') ++ "\n"

/-- Concatenation of a list of strings, in order. -/
def strJoin : List String → String
  | [] => ""
  | s :: rest => s ++ strJoin rest

/-- The padding idiom of the source (lines 100-102 and 124-134): append
spaces up to width w, appending nothing when the string is already at
least w characters long (Python's range of a non-positive number). -/
def padRight (s : String) (w : Nat) : String :=
  s ++ String.mk (List.replicate (w - s.length) ' ')

/-- Python str.split with a one-character separator, on character lists:
splitChar c l cuts l at every occurrence of c.  It always returns at
least one (possibly empty) piece. -/
def splitChar (c : Char) : List Char → List (List Char)
  | [] => [[]]
  | a :: rest =>
    if a == c then [] :: splitChar c rest
    else
      match splitChar c rest with
      | [] => [[a]]
      | h :: t => (a :: h) :: t

/-- Python str.split with a one-character separator, on strings. -/
def pySplit (c : Char) (s : String) : List String :=
  (splitChar c s.data).map String.mk

/-- Python str.strip: drop leading and trailing whitespace (line 154). -/
def pyStrip (s : String) : String :=
  String.mk (((s.data.dropWhile Char.isWhitespace).reverse.dropWhile
    Char.isWhitespace).reverse)

/-- The dictionary lookup idiom of lines 90 and 121:
fields.find on the path field[number=n] returns the first field child
whose number attribute equals n, or None. -/
def findField (fields : List FieldDef) (n : String) : Option FieldDef :=
  fields.find? (fun f => f.number == n)

/-- FIXParser.get_enum_str (lines 87-107).  The broad except of the
source prints and falls through, returning None; inside this model the
only operation that can raise is the field lookup itself (line 90), so
the result is none exactly when the tag number has no field definition.
The first conditional models the firstVal check of lines 91-97, the
second the truthiness test if field of line 99 (an Element is truthy
when it has children); both hold exactly when the field has at least one
value child.  The final loop of lines 103-104 walks every child of the
field element. -/
def get_enum_str (fields : List FieldDef) (tag_number tag_value : String) :
    Option String :=
  match findField fields tag_number with
  | none => none
  | some field =>
    let enums :=
      if field.values.isEmpty then ""
      else
        match field.values.find? (fun v => v.code == tag_value) with
        | some meaning => " (" ++ meaning.description ++ ")"
        | none => " (ERROR: NO MATCHING ENUM. CHECK DICTIONARY)"
    if field.values.isEmpty then some enums
    else
      some (field.values.foldl
        (fun acc v => acc ++ v.code ++ " : " ++ v.description ++ ", ")
        (enums ++ String.mk (List.replicate
          (trailing_column_length - enums.length) ' ')))

/-- The match or mismatch marker of lines 93-97, stated on its own for
comparison with get_enum_str: the first enum entry whose code equals the
value gives a parenthesised description, no such entry gives the error
marker. -/
def enumMarker (f : FieldDef) (v : String) : String :=
  match f.values.find? (fun e => e.code == v) with
  | some meaning => " (" ++ meaning.description ++ ")"
  | none => " (ERROR: NO MATCHING ENUM. CHECK DICTIONARY)"

/-- The conditional row separator written by lines 112-113 and 142-143:
row_separator when the row_lines flag is set, nothing otherwise. -/
def trailSep (cfg : RenderConfig) : String :=
  if cfg.row_lines then row_separator else ""

/-- Outcome of the loop body of make_readable (lines 115-143) on one
token. -/
inductive TokStep where
  | skip : TokStep
  | failAt : String → TokStep
  | emit : String → TokStep
  deriving DecidableEq, Repr

/-- The loop body of make_readable (lines 115-140) on one token:

* the token is split on the equals sign (line 116); a one-piece result is
  skipped (lines 117-118);
* otherwise pair[0] is the tag number and pair[1] the value (lines 120,
  122; later pieces are dropped);
* self.fields.find(...).get("name") (line 121) raises when self.fields is
  None or when the lookup misses, ending the whole loop: modelled as
  failAt tag_number, since the except of line 145 prints a message
  carrying that tag number;
* the paddings of lines 124-134 right-pad the tag number and the field
  name to their column widths, adding nothing when already long enough;
* enums is empty when hide_enums is set, else get_enum_str's result
  (lines 136-138), whose None (unreachable here, the lookup has already
  succeeded) would raise at the concatenation of line 140;
* the emitted line is the concatenation of line 140. -/
def stepTok (fields : Option (List FieldDef)) (cfg : RenderConfig)
    (tok : String) : TokStep :=
  match pySplit '=' tok with
  | [] => TokStep.skip
  | [_] => TokStep.skip
  | tag_number :: tag_value :: _ =>
    match fields with
    | none => TokStep.failAt tag_number
    | some fs =>
      match findField fs tag_number with
      | none => TokStep.failAt tag_number
      | some field =>
        match (if cfg.hide_enums then some ""
               else get_enum_str fs tag_number tag_value) with
        | none => TokStep.failAt tag_number
        | some enums =>
          TokStep.emit (tag_number
            ++ String.mk (List.replicate
              (tag_column_length - tag_number.length) ' ')
            ++ " | " ++ field.name
            ++ String.mk (List.replicate
              (field_name_column_length - field.name.length) ' ')
            ++ " | " ++ tag_value ++ enums ++ "\n")

/-- The for loop of make_readable (lines 115-143), accumulating what has
been written to the output file.  A skip continues, an emit writes the
field line followed by the conditional row separator (lines 141-143) and
continues, a failure returns what was already written together with the
tag number reported by the exception print of line 145 (writes are never
rolled back). -/
def make_readable_go (fields : Option (List FieldDef)) (cfg : RenderConfig) :
    List String → String → String × Option String
  | [], acc => (acc, none)
  | tok :: rest, acc =>
    match stepTok fields cfg tok with
    | TokStep.skip => make_readable_go fields cfg rest acc
    | TokStep.failAt n => (acc, some n)
    | TokStep.emit line =>
      make_readable_go fields cfg rest (acc ++ line ++ trailSep cfg)

/-- FIXParser.make_readable (lines 109-145): the initial conditional row
separator of lines 112-113, then the token loop.  The first component is
everything written to the output file, the second the tag number of the
exception message when the loop was cut short. -/
def make_readable (fields : Option (List FieldDef)) (cfg : RenderConfig)
    (tags : List String) : String × Option String :=
  make_readable_go fields cfg tags (trailSep cfg)

/-- The rendered field lines of a token list, in order, up to the first
failing token: the lines that make_readable's loop writes. -/
def fieldLines (fields : Option (List FieldDef)) (cfg : RenderConfig) :
    List String → List String
  | [] => []
  | tok :: rest =>
    match stepTok fields cfg tok with
    | TokStep.skip => fieldLines fields cfg rest
    | TokStep.failAt _ => []
    | TokStep.emit line => line :: fieldLines fields cfg rest

/-- A token on which make_readable's loop does not raise: it is either
skipped or rendered. -/
def tokenOk (fields : Option (List FieldDef)) (cfg : RenderConfig)
    (tok : String) : Bool :=
  match stepTok fields cfg tok with
  | TokStep.failAt _ => false
  | _ => true

/-- The per-line body of the while loop of parse_input_file
(lines 153-160): strip the line; a blank or comment line writes nothing;
any other line is split on the SOH delimiter, rendered by make_readable,
and followed by the message separator write of line 160. -/
def processLine (fields : Option (List FieldDef)) (cfg : RenderConfig)
    (rawLine : String) : String :=
  let line := pyStrip rawLine
  if line = "" then ""
  else if line.front = '#' then ""
  else (make_readable fields cfg (pySplit sohChar line)).1 ++ msg_separator

/-- FIXParser.parse_input_file (lines 147-165) on the list of input
lines: the concatenation, in file order, of what each line writes to the
output file. -/
def parse_input_file (fields : Option (List FieldDef)) (cfg : RenderConfig)
    (lines : List String) : String :=
  strJoin (lines.map (processLine fields cfg))

/-- Example dictionary field: number 54, name Side, two enum values. -/
def sideDef : FieldDef :=
  ⟨"54", "Side", [⟨"1", "Buy"⟩, ⟨"2", "Sell"⟩]⟩

/-- Example dictionary field with no enum values. -/
def qtyDef : FieldDef :=
  ⟨"38", "OrderQty", []⟩

/-- Example dictionary: the fields section holding sideDef and qtyDef. -/
def exampleFields : List FieldDef := [sideDef, qtyDef]

/-- Configuration with both flags off. -/
def cfg0 : RenderConfig := ⟨false, false⟩

/-- Configuration with only row_lines set. -/
def cfgRow : RenderConfig := ⟨false, true⟩

/-! ### General helper lemmas -/

/-- Rebuilding a string from its character list gives the string back. -/
theorem mk_data (s : String) : String.mk s.data = s := rfl

/-- The empty character list builds the empty string. -/
theorem mk_nil : String.mk [] = "" := rfl

/-- The character list of an appended string. -/
theorem data_append (a b : String) : (a ++ b).data = a.data ++ b.data := rfl

/-- The character list of the one-character equals-sign string. -/
theorem eqsData : ("=" : String).data = ['='] := rfl

/-- splitChar always returns at least one piece. -/
theorem splitChar_ne_nil (c : Char) (l : List Char) : splitChar c l ≠ [] := by
  induction l with
  | nil => simp [splitChar]
  | cons a rest ih =>
    simp only [splitChar]
    split
    · exact List.cons_ne_nil _ _
    · split
      · exact List.cons_ne_nil _ _
      · exact List.cons_ne_nil _ _

/-- Splitting a list that does not contain the separator yields the list
itself as the single piece. -/
theorem splitChar_not_mem (c : Char) (l : List Char) (h : c ∉ l) :
    splitChar c l = [l] := by
  induction l with
  | nil => rfl
  | cons a rest ih =>
    have ha : (a == c) = false :=
      beq_eq_false_iff_ne.mpr (fun e => h (List.mem_cons.mpr (Or.inl e.symm)))
    have hr : c ∉ rest := fun hm => h (List.mem_cons_of_mem _ hm)
    simp [splitChar, ha, ih hr]

/-- Splitting cuts at the first separator occurrence: a separator-free
part before one occurrence becomes the first piece. -/
theorem splitChar_append (c : Char) (l₁ l₂ : List Char) (h : c ∉ l₁) :
    splitChar c (l₁ ++ c :: l₂) = l₁ :: splitChar c l₂ := by
  induction l₁ with
  | nil => simp [splitChar]
  | cons a rest ih =>
    have ha : (a == c) = false :=
      beq_eq_false_iff_ne.mpr (fun e => h (List.mem_cons.mpr (Or.inl e.symm)))
    have hr : c ∉ rest := fun hm => h (List.mem_cons_of_mem _ hm)
    rw [List.cons_append]
    simp [splitChar, ha, ih hr]

/-- A string not containing the separator splits into itself alone. -/
theorem pySplit_not_mem (c : Char) (s : String) (h : c ∉ s.data) :
    pySplit c s = [s] := by
  simp [pySplit, splitChar_not_mem c s.data h, mk_data]

/-! ### Lemmas about the loop body and the loop -/

/-- A one-piece split (a token without an equals sign) is skipped by the
loop body. -/
theorem stepTok_skip_of_split_one (fields : Option (List FieldDef))
    (cfg : RenderConfig) (tok t : String) (h : pySplit '=' tok = [t]) :
    stepTok fields cfg tok = TokStep.skip := by
  simp [stepTok, h]

/-- With no loaded dictionary, every token with an equals sign makes the
loop body raise at the lookup of line 121. -/
theorem stepTok_failAt_none (cfg : RenderConfig) (tok n v : String)
    (ps : List String) (h : pySplit '=' tok = n :: v :: ps) :
    stepTok none cfg tok = TokStep.failAt n := by
  simp [stepTok, h]

/-- A tag number absent from the dictionary makes the loop body raise at
the lookup of line 121. -/
theorem stepTok_failAt_unknown (fs : List FieldDef) (cfg : RenderConfig)
    (tok n v : String) (ps : List String)
    (h : pySplit '=' tok = n :: v :: ps) (hn : findField fs n = none) :
    stepTok (some fs) cfg tok = TokStep.failAt n := by
  simp [stepTok, h, hn]

/-- get_enum_str succeeds whenever the tag number resolves. -/
theorem get_enum_str_isSome (fs : List FieldDef) (n v : String)
    (f : FieldDef) (hf : findField fs n = some f) :
    ∃ s, get_enum_str fs n v = some s := by
  cases he : f.values.isEmpty <;> simp [get_enum_str, hf, he]

/-- A resolvable token with an equals sign makes the loop body emit the
field line of line 140, with both columns right-padded. -/
theorem stepTok_emit_of_found (fs : List FieldDef) (cfg : RenderConfig)
    (tok n v : String) (ps : List String) (f : FieldDef)
    (hsplit : pySplit '=' tok = n :: v :: ps)
    (hf : findField fs n = some f) :
    stepTok (some fs) cfg tok = TokStep.emit
      (padRight n tag_column_length ++ " | "
        ++ padRight f.name field_name_column_length ++ " | " ++ v
        ++ (if cfg.hide_enums then "" else (get_enum_str fs n v).getD "")
        ++ "\n") := by
  cases hh : cfg.hide_enums
  · obtain ⟨s, hs⟩ := get_enum_str_isSome fs n v f hf
    simp [stepTok, hsplit, hf, hh, hs, padRight, String.append_assoc]
  · simp [stepTok, hsplit, hf, hh, padRight, String.append_assoc]

/-- What the loop writes equals the rendered field lines, each followed
by the conditional row separator, appended to the initial accumulator. -/
theorem go_eq_fieldLines (fields : Option (List FieldDef))
    (cfg : RenderConfig) (tags : List String) :
    ∀ acc : String,
      (make_readable_go fields cfg tags acc).1
        = acc ++ strJoin ((fieldLines fields cfg tags).map
            (fun l => l ++ trailSep cfg)) := by
  induction tags with
  | nil => intro acc; simp [make_readable_go, fieldLines, strJoin]
  | cons tok rest ih =>
    intro acc
    cases h : stepTok fields cfg tok with
    | skip => simp [make_readable_go, fieldLines, h, ih]
    | failAt n => simp [make_readable_go, fieldLines, h, strJoin]
    | emit line =>
      simp [make_readable_go, fieldLines, h, ih, strJoin, String.append_assoc]

/-- When every token before a failing one is fine, the loop keeps the
output written for the earlier tokens, reports the failing token's tag
number, and renders nothing further. -/
theorem go_stops_at_failure (fields : Option (List FieldDef))
    (cfg : RenderConfig) (pre : List String) (tok n : String)
    (post : List String)
    (hpre : ∀ t ∈ pre, tokenOk fields cfg t = true)
    (htok : stepTok fields cfg tok = TokStep.failAt n) :
    ∀ acc, make_readable_go fields cfg (pre ++ tok :: post) acc
      = ((make_readable_go fields cfg pre acc).1, some n) := by
  induction pre with
  | nil => intro acc; simp [make_readable_go, htok]
  | cons t pre ih =>
    intro acc
    have ht := hpre t (List.mem_cons_self t pre)
    have hpre' : ∀ x ∈ pre, tokenOk fields cfg x = true :=
      fun x hx => hpre x (List.mem_cons_of_mem _ hx)
    cases h : stepTok fields cfg t with
    | skip => simp [make_readable_go, h, ih hpre']
    | failAt m => simp [tokenOk, h] at ht
    | emit line => simp [make_readable_go, h, ih hpre']

/-- With no loaded dictionary the loop writes nothing beyond its initial
accumulator: the first token with an equals sign raises, the others are
skipped. -/
theorem go_none_fst (cfg : RenderConfig) (tags : List String) :
    ∀ acc, (make_readable_go none cfg tags acc).1 = acc := by
  induction tags with
  | nil => intro acc; rfl
  | cons tok rest ih =>
    intro acc
    cases h : stepTok none cfg tok with
    | skip => simp [make_readable_go, h, ih]
    | failAt n => simp [make_readable_go, h]
    | emit line =>
      exfalso
      rcases hs : pySplit '=' tok with _ | ⟨a, _ | ⟨b, l⟩⟩ <;>
        simp [stepTok, hs] at h

/-- A token list whose every member is skipped leaves the accumulator
untouched and raises nothing. -/
theorem go_all_skip (fields : Option (List FieldDef)) (cfg : RenderConfig)
    (tags : List String)
    (h : ∀ t ∈ tags, stepTok fields cfg t = TokStep.skip) :
    ∀ acc, make_readable_go fields cfg tags acc = (acc, none) := by
  induction tags with
  | nil => intro acc; rfl
  | cons tok rest ih =>
    intro acc
    have h1 := h tok (List.mem_cons_self tok rest)
    simp [make_readable_go, h1,
      ih (fun t ht => h t (List.mem_cons_of_mem _ ht)) acc]

/-- make_readable on a single resolvable token: the conditional leading
row separator, the formatted field line, and the conditional trailing
row separator. -/
theorem make_readable_single (fs : List FieldDef) (cfg : RenderConfig)
    (tok n v : String) (ps : List String) (f : FieldDef)
    (hsplit : pySplit '=' tok = n :: v :: ps)
    (hf : findField fs n = some f) :
    (make_readable (some fs) cfg [tok]).1
      = (if cfg.row_lines then row_separator else "")
        ++ (padRight n tag_column_length ++ " | "
          ++ padRight f.name field_name_column_length ++ " | " ++ v
          ++ (if cfg.hide_enums then "" else (get_enum_str fs n v).getD "")
          ++ "\n")
        ++ (if cfg.row_lines then row_separator else "") := by
  have hstep := stepTok_emit_of_found fs cfg tok n v ps f hsplit hf
  simp [make_readable, make_readable_go, hstep, trailSep, String.append_assoc]

/-! ### Claims -/

/-- C1, counterexample: the claim says that after an unresolvable pair
(tag 99 has no field definition) the remaining pairs of the line are
still rendered; on the code, the pair 54=1 renders to a non-empty field
line when alone, yet after the unknown tag 99 the line's output is
empty. -/
theorem unknownTagSuppressesRest_cex :
    (make_readable (some exampleFields) cfg0 ["99=x", "54=1"]).1 = ""
      ∧ (make_readable (some exampleFields) cfg0 ["54=1"]).1 ≠ "" := by
  constructor
  · decide
  · decide

/-- C1 (amended): resolution of a pair whose tag number has no field
definition fails for the whole rest of the line, not per-pair: the
exception of line 121 ends make_readable's loop, the printed message
identifies the offending tag number (second component), the field lines
already written for earlier pairs remain, and the offending pair and
every remaining pair on the line produce no output. -/
theorem unknownTagAbortsLine (fs : List FieldDef) (cfg : RenderConfig)
    (pre post : List String) (tok n v : String) (ps : List String)
    (hpre : ∀ t ∈ pre, tokenOk (some fs) cfg t = true)
    (hsplit : pySplit '=' tok = n :: v :: ps)
    (hn : findField fs n = none) :
    (make_readable (some fs) cfg (pre ++ tok :: post)).1
        = (make_readable (some fs) cfg pre).1
      ∧ (make_readable (some fs) cfg (pre ++ tok :: post)).2 = some n := by
  have habort := stepTok_failAt_unknown fs cfg tok n v ps hsplit hn
  have h := go_stops_at_failure (some fs) cfg pre tok n post hpre habort
    (trailSep cfg)
  constructor
  · rw [make_readable, make_readable, h]
  · rw [make_readable, h]

/-- C1 witness: with the dictionary knowing only fields 54 and 38, the
line 99=x then 54=1 keeps the (empty) output of the pairs before 99 and
reports tag 99. -/
theorem unknownTagAbortsLine_witness :
    (make_readable (some exampleFields) cfg0 (["99=x", "54=1"])).1
        = (make_readable (some exampleFields) cfg0 []).1
      ∧ (make_readable (some exampleFields) cfg0 (["99=x", "54=1"])).2
        = some "99" :=
  unknownTagAbortsLine exampleFields cfg0 [] ["54=1"] "99=x" "99" "x" []
    (by decide) (by decide) (by decide)

/-- The enum-listing loop of lines 103-104 as a join: folding the
append of each entry's rendering equals the initial string followed by
the joined renderings. -/
theorem enumListing_foldl (l : List EnumEntry) : ∀ init : String,
    l.foldl (fun acc v => acc ++ v.code ++ " : " ++ v.description ++ ", ") init
      = init ++ strJoin (l.map
          (fun e => e.code ++ " : " ++ e.description ++ ", ")) := by
  induction l with
  | nil => intro init; simp [strJoin]
  | cons a l ih =>
    intro init
    simp only [List.foldl, List.map, strJoin]
    rw [ih]
    simp [String.append_assoc]

/-- C2: for an enumerated field (at least one value child) the annotation
is the parenthesised matching description, or the no-matching-enum error
marker, right-padded with spaces to the trailing column width of 65
(nothing added when already longer), followed by every enum entry in
declaration order rendered as code, colon, description, comma. -/
theorem enumColumnSpec (fs : List FieldDef) (f : FieldDef) (n v : String)
    (hf : findField fs n = some f) (he : f.values ≠ []) :
    get_enum_str fs n v
      = some (padRight (enumMarker f v) trailing_column_length
          ++ strJoin (f.values.map
            (fun e => e.code ++ " : " ++ e.description ++ ", "))) := by
  have hne : f.values.isEmpty = false := by
    cases hv : f.values
    · exact absurd hv he
    · rfl
  simp only [get_enum_str, hf, hne, Bool.false_eq_true, if_false]
  rw [enumListing_foldl]
  simp [enumMarker, padRight]

/-- C2 witness: field 54 with enums 1 Buy and 2 Sell and value 1 yields
the Buy annotation padded to 65 followed by the full listing. -/
theorem enumColumnSpec_witness :
    get_enum_str exampleFields "54" "1"
      = some (padRight (enumMarker sideDef "1") trailing_column_length
          ++ strJoin (sideDef.values.map
            (fun e => e.code ++ " : " ++ e.description ++ ", "))) :=
  enumColumnSpec exampleFields sideDef "54" "1" (by decide) (by decide)

/-- C3: each resolved pair yields exactly one output line, the tag number
right-padded to width 5, a pipe, the field name right-padded to width 23,
a pipe, the raw value with its annotation, and a newline; and padding to
a width no larger than the string's length changes nothing, so long
values are never truncated. -/
theorem fieldLineFormat (fs : List FieldDef) (cfg : RenderConfig)
    (tok n v : String) (ps : List String) (f : FieldDef)
    (hsplit : pySplit '=' tok = n :: v :: ps)
    (hf : findField fs n = some f) :
    ((make_readable (some fs) cfg [tok]).1
      = (if cfg.row_lines then row_separator else "")
        ++ (padRight n tag_column_length ++ " | "
          ++ padRight f.name field_name_column_length ++ " | " ++ v
          ++ (if cfg.hide_enums then "" else (get_enum_str fs n v).getD "")
          ++ "\n")
        ++ (if cfg.row_lines then row_separator else ""))
      ∧ ∀ (s : String) (w : Nat), w ≤ s.length → padRight s w = s := by
  constructor
  · exact make_readable_single fs cfg tok n v ps f hsplit hf
  · intro s w hw
    simp [padRight, Nat.sub_eq_zero_of_le hw, mk_nil]

/-- C3 witness: the pair 54=1 renders to one line with both columns
padded. -/
theorem fieldLineFormat_witness :
    ((make_readable (some exampleFields) cfg0 ["54=1"]).1
      = (if cfg0.row_lines then row_separator else "")
        ++ (padRight "54" tag_column_length ++ " | "
          ++ padRight sideDef.name field_name_column_length ++ " | " ++ "1"
          ++ (if cfg0.hide_enums then ""
              else (get_enum_str exampleFields "54" "1").getD "")
          ++ "\n")
        ++ (if cfg0.row_lines then row_separator else ""))
      ∧ ∀ (s : String) (w : Nat), w ≤ s.length → padRight s w = s :=
  fieldLineFormat exampleFields cfg0 "54=1" "54" "1" [] sideDef
    (by decide) (by decide)

/-- C4: every non-blank, non-comment input line writes its rendering
followed by exactly the message separator of 100 periods and a newline,
whatever the flags; and a line whose every token lacks an equals sign
renders nothing beyond the conditional leading row separator, so its
block is separator-only under default flags. -/
theorem messageSeparatorPerLine (fields : Option (List FieldDef))
    (cfg : RenderConfig) (rawLine : String)
    (h1 : pyStrip rawLine ≠ "") (h2 : (pyStrip rawLine).front ≠ '#') :
    (processLine fields cfg rawLine
        = (make_readable fields cfg (pySplit sohChar (pyStrip rawLine))).1
          ++ msg_separator)
      ∧ msg_separator = String.mk (List.replicate 100 '.') ++ "\n"
      ∧ ∀ tags : List String, (∀ t ∈ tags, pySplit '=' t = [t]) →
          (make_readable fields cfg tags).1
            = (if cfg.row_lines then row_separator else "") := by
  refine ⟨?_, rfl, ?_⟩
  · simp only [processLine]
    rw [if_neg h1, if_neg h2]
  · intro tags h
    have hs : ∀ t ∈ tags, stepTok fields cfg t = TokStep.skip :=
      fun t ht => stepTok_skip_of_split_one fields cfg t t (h t ht)
    rw [make_readable, go_all_skip fields cfg tags hs (trailSep cfg)]
    simp [trailSep]

/-- C4 witness: the line 54=1 writes its field line followed by the
message separator. -/
theorem messageSeparatorPerLine_witness :
    (processLine (some exampleFields) cfg0 "54=1"
        = (make_readable (some exampleFields) cfg0
            (pySplit sohChar (pyStrip "54=1"))).1 ++ msg_separator)
      ∧ msg_separator = String.mk (List.replicate 100 '.') ++ "\n"
      ∧ ∀ tags : List String, (∀ t ∈ tags, pySplit '=' t = [t]) →
          (make_readable (some exampleFields) cfg0 tags).1
            = (if cfg0.row_lines then row_separator else "") :=
  messageSeparatorPerLine (some exampleFields) cfg0 "54=1"
    (by decide) (by decide)

/-- C5, counterexample: the claim says a dictionary failure is fatal and
no per-line processing or output occurs; on the code, with self.fields
left as None the run still processes the input line 54=1 and writes a
non-empty message-separator block. -/
theorem dictFatal_cex :
    parse_input_file none cfg0 ["54=1"] = msg_separator
      ∧ msg_separator ≠ "" := by
  constructor
  · decide
  · decide

/-- C5 (amended): when the dictionary document cannot be parsed or has no
fields section, init_fields leaves the fields unset and the run is not
aborted (a parse failure raises and its message is printed; a document
with no fields section raises nothing and is passed over silently):
every input line is still read, and each non-blank, non-comment line
still writes a block to the output, namely the conditional row separator
followed by the message separator (its pairs all fail to resolve). -/
theorem dictionaryFailureDoesNotAbortRun (cfg : RenderConfig)
    (rawLine : String) (restLines : List String)
    (h1 : pyStrip rawLine ≠ "") (h2 : (pyStrip rawLine).front ≠ '#') :
    parse_input_file none cfg (rawLine :: restLines)
      = ((if cfg.row_lines then row_separator else "") ++ msg_separator)
        ++ parse_input_file none cfg restLines := by
  simp only [parse_input_file, List.map, strJoin]
  have hp : processLine none cfg rawLine
      = (if cfg.row_lines then row_separator else "") ++ msg_separator := by
    simp only [processLine]
    rw [if_neg h1, if_neg h2, make_readable,
      go_none_fst cfg (pySplit sohChar (pyStrip rawLine)) (trailSep cfg)]
    simp [trailSep]
  rw [hp]

/-- C5 witness: with no dictionary loaded, the one-line input 54=1 still
yields a message-separator block. -/
theorem dictionaryFailureDoesNotAbortRun_witness :
    parse_input_file none cfg0 (["54=1"])
      = ((if cfg0.row_lines then row_separator else "") ++ msg_separator)
        ++ parse_input_file none cfg0 [] :=
  dictionaryFailureDoesNotAbortRun cfg0 "54=1" [] (by decide) (by decide)

/-- C6: with the row_lines flag set, the rendering of a token list is the
row separator followed by each rendered field line with a row separator
immediately after it, so a row separator stands immediately before every
field line and once after the last one; and the row separator is 5
dashes, dash-plus-dash, 23 dashes, dash-plus-dash, 65 dashes and a
newline. -/
theorem rowLinesAroundFieldLines (fields : Option (List FieldDef))
    (cfg : RenderConfig) (tags : List String)
    (hrow : cfg.row_lines = true) :
    ((make_readable fields cfg tags).1
      = row_separator
        ++ strJoin ((fieldLines fields cfg tags).map
            (fun l => l ++ row_separator)))
      ∧ row_separator
        = String.mk (List.replicate 5 '-') ++ "-+-"
          ++ String.mk (List.replicate 23 '-') ++ "-+-"
          ++ String.mk (List.replicate 65 '-') ++ "\n" := by
  constructor
  · rw [make_readable, go_eq_fieldLines fields cfg tags (trailSep cfg)]
    simp [trailSep, hrow]
  · rfl

/-- C6 witness: with row_lines set, the line 54=1 renders as a row
separator, the field line, and a closing row separator. -/
theorem rowLinesAroundFieldLines_witness :
    ((make_readable (some exampleFields) cfgRow ["54=1"]).1
      = row_separator
        ++ strJoin ((fieldLines (some exampleFields) cfgRow ["54=1"]).map
            (fun l => l ++ row_separator)))
      ∧ row_separator
        = String.mk (List.replicate 5 '-') ++ "-+-"
          ++ String.mk (List.replicate 23 '-') ++ "-+-"
          ++ String.mk (List.replicate 65 '-') ++ "\n" :=
  rowLinesAroundFieldLines (some exampleFields) cfgRow ["54=1"] (by decide)

/-- The character list of a built string is the building list. -/
theorem data_mk (l : List Char) : (String.mk l).data = l := rfl

/-- C7: an input line is tokenized by splitting on the SOH control
character; a token split into a single piece, that is a token without an
equals sign, is skipped by the rendering loop, producing no field line
and no error, the degenerate empty token included; and every non-blank,
non-comment line's tokens are exactly the SOH split of the stripped
line. -/
theorem tokenWithoutEqualsSkipped (fields : Option (List FieldDef))
    (cfg : RenderConfig) (tok : String) (rest : List String) (acc : String)
    (h : ('=' : Char) ∉ tok.data) :
    pySplit '=' tok = [tok]
      ∧ make_readable_go fields cfg (tok :: rest) acc
          = make_readable_go fields cfg rest acc
      ∧ ∀ s : String, pyStrip s ≠ "" → (pyStrip s).front ≠ '#' →
          processLine fields cfg s
            = (make_readable fields cfg (pySplit sohChar (pyStrip s))).1
              ++ msg_separator := by
  have hp := pySplit_not_mem '=' tok h
  refine ⟨hp, ?_, ?_⟩
  · have hs := stepTok_skip_of_split_one fields cfg tok tok hp
    simp [make_readable_go, hs]
  · intro s hs1 hs2
    simp only [processLine]
    rw [if_neg hs1, if_neg hs2]

/-- C7 witness: the empty token produced by a trailing delimiter is
skipped. -/
theorem tokenWithoutEqualsSkipped_witness :
    pySplit '=' "" = [""]
      ∧ make_readable_go (some exampleFields) cfg0 ("" :: ["54=1"]) ""
          = make_readable_go (some exampleFields) cfg0 ["54=1"] ""
      ∧ ∀ s : String, pyStrip s ≠ "" → (pyStrip s).front ≠ '#' →
          processLine (some exampleFields) cfg0 s
            = (make_readable (some exampleFields) cfg0
                (pySplit sohChar (pyStrip s))).1 ++ msg_separator :=
  tokenWithoutEqualsSkipped (some exampleFields) cfg0 "" ["54=1"] ""
    (by decide)

/-- C8, counterexample: the claim says the per-line token split is
effectively a no-op; on the code the delimiter is the SOH control
character U+0001, and a line holding two SOH-joined pairs splits into
two tokens, not into itself. -/
theorem noopSplit_cex :
    pySplit sohChar "54=1\x0138=2" = ["54=1", "38=2"]
      ∧ pySplit sohChar "54=1\x0138=2" ≠ ["54=1\x0138=2"] := by
  constructor
  · decide
  · decide

/-- C8 (amended): the line-splitting delimiter of line 158 is not empty
but the single SOH control character U+0001, the FIX field separator:
splitting genuinely cuts the line at each occurrence of that
character. -/
theorem sohSplitSeparates (a b : String)
    (ha : sohChar ∉ a.data) (hb : sohChar ∉ b.data) :
    pySplit sohChar (a ++ String.mk [sohChar] ++ b) = [a, b] := by
  have hd : (a ++ String.mk [sohChar] ++ b).data
      = a.data ++ sohChar :: b.data := by
    simp [data_append, data_mk]
  rw [pySplit, hd, splitChar_append sohChar a.data b.data ha,
    splitChar_not_mem sohChar b.data hb]
  simp [mk_data]

/-- C8 witness: two SOH-joined pairs split into the two pairs. -/
theorem sohSplitSeparates_witness :
    pySplit sohChar ("54=1" ++ String.mk [sohChar] ++ "38=2")
      = ["54=1", "38=2"] :=
  sohSplitSeparates "54=1" "38=2" (by decide) (by decide)

/-- C9: a token with two or more equals signs renders only the segment
between the first and the second as the value, everything after the
second equals sign being dropped from the output; and a token of the
form tag-equals renders the empty string as its value. -/
theorem extraEqualsDropped (fs : List FieldDef) (cfg : RenderConfig)
    (n v w : String) (f : FieldDef)
    (hn : ('=' : Char) ∉ n.data) (hv : ('=' : Char) ∉ v.data)
    (hf : findField fs n = some f) :
    ((make_readable (some fs) cfg [n ++ "=" ++ v ++ "=" ++ w]).1
      = (if cfg.row_lines then row_separator else "")
        ++ (padRight n tag_column_length ++ " | "
          ++ padRight f.name field_name_column_length ++ " | " ++ v
          ++ (if cfg.hide_enums then "" else (get_enum_str fs n v).getD "")
          ++ "\n")
        ++ (if cfg.row_lines then row_separator else ""))
      ∧ (make_readable (some fs) cfg [n ++ "="]).1
        = (if cfg.row_lines then row_separator else "")
          ++ (padRight n tag_column_length ++ " | "
            ++ padRight f.name field_name_column_length ++ " | " ++ ""
            ++ (if cfg.hide_enums then ""
                else (get_enum_str fs n "").getD "")
            ++ "\n")
          ++ (if cfg.row_lines then row_separator else "") := by
  have hd1 : (n ++ "=" ++ v ++ "=" ++ w).data
      = n.data ++ '=' :: (v.data ++ '=' :: w.data) := by
    simp [data_append, eqsData]
  have hsplit1 : pySplit '=' (n ++ "=" ++ v ++ "=" ++ w)
      = n :: v :: pySplit '=' w := by
    rw [pySplit, hd1, splitChar_append '=' n.data (v.data ++ '=' :: w.data) hn,
      splitChar_append '=' v.data w.data hv]
    simp [pySplit, mk_data]
  have hsplit2 : pySplit '=' (n ++ "=") = n :: "" :: [] := by
    have hd2 : (n ++ "=").data = n.data ++ '=' :: ([] : List Char) := rfl
    rw [pySplit, hd2, splitChar_append '=' n.data [] hn]
    simp [splitChar, mk_data, mk_nil]
  exact ⟨make_readable_single fs cfg _ n v (pySplit '=' w) f hsplit1 hf,
    make_readable_single fs cfg _ n "" [] f hsplit2 hf⟩

/-- C9 witness: the token 54=1=junk renders value 1, and 54= renders the
empty value. -/
theorem extraEqualsDropped_witness :
    ((make_readable (some exampleFields) cfg0 ["54" ++ "=" ++ "1" ++ "=" ++ "junk"]).1
      = (if cfg0.row_lines then row_separator else "")
        ++ (padRight "54" tag_column_length ++ " | "
          ++ padRight sideDef.name field_name_column_length ++ " | " ++ "1"
          ++ (if cfg0.hide_enums then ""
              else (get_enum_str exampleFields "54" "1").getD "")
          ++ "\n")
        ++ (if cfg0.row_lines then row_separator else ""))
      ∧ (make_readable (some exampleFields) cfg0 ["54" ++ "="]).1
        = (if cfg0.row_lines then row_separator else "")
          ++ (padRight "54" tag_column_length ++ " | "
            ++ padRight sideDef.name field_name_column_length ++ " | " ++ ""
            ++ (if cfg0.hide_enums then ""
                else (get_enum_str exampleFields "54" "").getD "")
            ++ "\n")
          ++ (if cfg0.row_lines then row_separator else "") :=
  extraEqualsDropped exampleFields cfg0 "54" "1" "junk" sideDef
    (by decide) (by decide) (by decide)

/-- C10: when rendering an input line stops at an unresolvable pair, the
field lines already written for the line's earlier pairs stay in the
output, the line's message separator is still written after them, and
processing continues with the remaining input lines; nothing already
written is rolled back. -/
theorem noRollbackOnMidLineFailure (fs : List FieldDef)
    (cfg : RenderConfig) (rawLine : String) (restLines : List String)
    (pre post : List String) (tok n v : String) (ps : List String)
    (h1 : pyStrip rawLine ≠ "") (h2 : (pyStrip rawLine).front ≠ '#')
    (htoks : pySplit sohChar (pyStrip rawLine) = pre ++ tok :: post)
    (hpre : ∀ t ∈ pre, tokenOk (some fs) cfg t = true)
    (hsplit : pySplit '=' tok = n :: v :: ps)
    (hn : findField fs n = none) :
    parse_input_file (some fs) cfg (rawLine :: restLines)
      = ((make_readable (some fs) cfg pre).1 ++ msg_separator)
        ++ parse_input_file (some fs) cfg restLines := by
  have habort := stepTok_failAt_unknown fs cfg tok n v ps hsplit hn
  have hgo := go_stops_at_failure (some fs) cfg pre tok n post hpre habort
    (trailSep cfg)
  have hp : processLine (some fs) cfg rawLine
      = (make_readable (some fs) cfg pre).1 ++ msg_separator := by
    simp only [processLine]
    rw [if_neg h1, if_neg h2, htoks, make_readable, hgo, make_readable]
  simp only [parse_input_file, List.map, strJoin]
  rw [hp]

/-- C10 witness: in the line 54=1, 99=x, 38=5 (SOH-joined) the unknown
tag 99 stops rendering, but the 54 field line and the message separator
are written and the next line is still processed. -/
theorem noRollbackOnMidLineFailure_witness :
    parse_input_file (some exampleFields) cfg0 ["54=1\x0199=x\x0138=5"]
      = ((make_readable (some exampleFields) cfg0 ["54=1"]).1
          ++ msg_separator)
        ++ parse_input_file (some exampleFields) cfg0 [] :=
  noRollbackOnMidLineFailure exampleFields cfg0 "54=1\x0199=x\x0138=5" []
    ["54=1"] ["38=5"] "99=x" "99" "x" []
    (by decide) (by decide) (by decide) (by decide) (by decide) (by decide)
